import Mathlib

/-
Verification of the gumdrop QUIC / HTTP-3 JNI bridge layer
(src/org/bluezoo/gumdrop/quic/jni/quiche_jni.c, h3_jni.c, ssl_ctx_jni.c).

Shallow-embedding conventions:
- Native byte buffers and Java byte arrays are `List Nat` (byte values 0..255).
- JNI values that may be unavailable (GetDirectBufferAddress returning NULL,
  a NULL stream iterator, an engine failure) are `Option _`.
- The external quiche / BoringSSL engines are oracles passed as function
  arguments; each bridge model records the call it forwards to the engine,
  so that "the engine was (or was not) invoked" is observable.
- malloc / JNI allocation inside the bridge is modelled as succeeding.
- C strings crossing the boundary are byte lists; strlen and NewStringUTF
  both delimit content at the first zero byte, modelled by `cstrBytes`.
-/

namespace Gumdrop

/-- Content of a NUL-delimited C byte string: the prefix before the first
zero byte.  This models both `strlen`-measured content (encode side of the
header codec, h3_jni.c send_response / send_request) and `NewStringUTF`
reading the bytes copied and NUL-terminated by `header_cb` (decode side). -/
def cstrBytes (s : List Nat) : List Nat := s.takeWhile (fun c => c != 0)

/- ── ssl_ctx_jni.c: ALPN table and server-side selection ── -/

/-- Result of the ALPN selection callback `alpn_select_cb`:
SSL_TLSEXT_ERR_OK with the chosen protocol bytes, SSL_TLSEXT_ERR_NOACK
(no application protocol acknowledged, handshake proceeds), or
SSL_TLSEXT_ERR_ALERT_FATAL (never produced by this callback). -/
inductive AlpnResult where
  | ok (proto : List Nat)
  | noack
  | alertFatal
  deriving DecidableEq

/-- ALPN wire format ("protocol-list format"): each protocol is preceded by
its one-byte length.  This is the byte layout both `SSL_CTX_set_alpn_protos`
and `SSL_select_next_proto` consume. -/
def alpnWire : List (List Nat) → List Nat
  | [] => []
  | p :: ps => p.length :: (p ++ alpnWire ps)

/-- Inner loop of `SSL_select_next_proto`: scan the wire-format list `l`
(`for (j = 0; j < client_len;) { ... j += client[j]; j++; }`) for an entry
whose length byte equals `plen` and whose bytes equal `pbytes`. -/
def alpnInnerMatch (plen : Nat) (pbytes : List Nat) (l : List Nat) : Bool :=
  match l with
  | [] => false
  | j0 :: rest =>
      if j0 = plen ∧ rest.take plen = pbytes then true
      else alpnInnerMatch plen pbytes (rest.drop j0)
termination_by l.length
decreasing_by simp [List.length_drop]; omega

/-- Outer loop of `SSL_select_next_proto`: walk the first wire-format list
(`for (i = 0; i < server_len;) { ... i += server[i]; i++; }`) and return the
first of its entries that `alpnInnerMatch` finds in `supported`. -/
def alpnScan (supported : List Nat) (l : List Nat) : Option (List Nat) :=
  match l with
  | [] => none
  | i0 :: rest =>
      if alpnInnerMatch i0 (rest.take i0) supported then some (rest.take i0)
      else alpnScan supported (rest.drop i0)
termination_by l.length
decreasing_by simp [List.length_drop]; omega

/-- `SSL_select_next_proto(out, outlen, first, first_len, second, second_len)`:
iterates the FIRST list in order and selects its first entry that also occurs
in the SECOND list; `none` models any status other than
OPENSSL_NPN_NEGOTIATED. -/
def SSL_select_next_proto (first second : List Nat) : Option (List Nat) :=
  alpnScan second first

/-- The per-context state relevant to ALPN: the wire-format protocol bytes
stored against the SSL_CTX via `SSL_CTX_set_ex_data` (none before
`ssl_ctx_set_alpn_protos` has been called). -/
structure SslCtx where
  alpnTable : Option (List Nat)
  deriving DecidableEq

/-- `Java_..._ssl_1ctx_1set_1alpn_1protos`: stores a copy of the wire bytes
in the context's ex-data slot (and installs `alpn_select_cb`). -/
def ssl_ctx_set_alpn_protos (ctx : SslCtx) (protos : List Nat) : SslCtx :=
  { ctx with alpnTable := some protos }

/-- `alpn_select_cb`: the server-side selection callback installed by
`ssl_ctx_set_alpn_protos`.  `peerAdvertised` is the wire-format list the
peer sent (`in`/`inlen`).  The callback passes the locally stored table as
the FIRST argument of `SSL_select_next_proto` and the peer's list as the
SECOND; NOACK when no table is stored or nothing is negotiated. -/
def alpn_select_cb (ctx : SslCtx) (peerAdvertised : List Nat) : AlpnResult :=
  match ctx.alpnTable with
  | none => AlpnResult.noack
  | some protos =>
      match SSL_select_next_proto protos peerAdvertised with
      | some p => AlpnResult.ok p
      | none => AlpnResult.noack

/-- Modelled from the spec's words (not from the source), for comparison
with the code's selection: "iterate the peer's advertised protocols in the
order the peer sent them; select the first one that also appears in the
locally configured table". -/
def alpnSpecPeerOrderSelect (peer table : List (List Nat)) :
    Option (List Nat) :=
  peer.find? (fun p => decide (p ∈ table))

/- ── h3_jni.c: event polling and the single event slot ── -/

/-- The kind reported by `quiche_h3_event_type`. -/
inductive H3EventType where
  | headers
  | data
  | finished
  | goaway
  | reset
  | other
  deriving DecidableEq

/-- The `switch (quiche_h3_event_type(ev))` mapping in
`Java_..._quiche_1h3_1conn_1poll`: Headers 0, Data 1, Finished 2, GoAway 3,
Reset 4, anything else -1. -/
def eventTypeCode : H3EventType → Int
  | H3EventType.headers => 0
  | H3EventType.data => 1
  | H3EventType.finished => 2
  | H3EventType.goaway => 3
  | H3EventType.reset => 4
  | H3EventType.other => -1

/-- A pending `quiche_h3_event` as delivered by the engine: the stream id
returned by `quiche_h3_conn_poll`, its type, and the raw name/value byte
pairs reachable through `quiche_h3_event_for_each_header`. -/
structure H3Event where
  streamId : Int
  etype : H3EventType
  rawHeaders : List (List Nat × List Nat)
  deriving DecidableEq

/-- The thread-local slot `static __thread quiche_h3_event *current_event`.
There is exactly one such slot per thread, shared by every h3 session the
thread touches; the `Nat` component records which h3 connection pointer's
poll cached the event (ghost information for stating cross-session facts). -/
def H3Slot : Type := Option (Nat × H3Event)

/-- Observable outcome of `Java_..._quiche_1h3_1conn_1poll`. -/
structure PollOutcome where
  slotAfter : Option (Nat × H3Event)
  ret : Option (Int × Int)
  releasedPrev : Bool
  engineInvoked : Bool
  deriving DecidableEq

/-- `Java_..._quiche_1h3_1conn_1poll`: frees whatever event the slot holds,
then asks the engine (`quiche_h3_conn_poll`) for the next event
(`engineResp`); on a negative stream id returns NULL, otherwise caches the
event and returns the `[stream_id, event_type]` pair.  The handle `h3ptr`
is cast straight to a pointer; no validation happens before dispatch. -/
def quiche_h3_conn_poll (prev : Option (Nat × H3Event)) (h3ptr : Nat)
    (engineResp : Option H3Event) : PollOutcome :=
  match engineResp with
  | none =>
      { slotAfter := none
        ret := none
        releasedPrev := prev.isSome
        engineInvoked := true }
  | some ev =>
      { slotAfter := some (h3ptr, ev)
        ret := some (ev.streamId, eventTypeCode ev.etype)
        releasedPrev := prev.isSome
        engineInvoked := true }

/-- Observable outcome of `Java_..._quiche_1h3_1conn_1free`. -/
structure H3FreeOutcome where
  slotAfter : Option (Nat × H3Event)
  releasedSlot : Bool
  engineFreeInvoked : Bool
  deriving DecidableEq

/-- `Java_..._quiche_1h3_1conn_1free`: calls `quiche_h3_conn_free` on the
cast pointer unconditionally, then frees and clears the thread's
`current_event` slot if it is non-NULL — whichever session filled it.
The function returns void: there is no error result of any kind. -/
def quiche_h3_conn_free (prev : Option (Nat × H3Event)) (h3ptr : Nat) :
    H3FreeOutcome :=
  { slotAfter := none
    releasedSlot := prev.isSome
    engineFreeInvoked := true }

/-- Observable outcome of `Java_..._quiche_1conn_1free`. -/
structure ConnFreeOutcome where
  engineFreeInvoked : Bool
  deriving DecidableEq

/-- `Java_..._quiche_1conn_1free`: casts the jlong to a `quiche_conn *` and
calls `quiche_conn_free` on it unconditionally.  No liveness information is
consulted and the function returns void. -/
def quiche_conn_free (conn_ptr : Int) : ConnFreeOutcome :=
  { engineFreeInvoked := true }

/-- The flat `[name0, value0, name1, value1, ...]` String array built by
`Java_..._quiche_1h3_1event_1headers`: `header_cb` copies each name/value
and NUL-terminates it, then `NewStringUTF` reads each up to its first zero
byte. -/
def decodeHeaderPairs : List (List Nat × List Nat) → List (List Nat)
  | [] => []
  | (n, v) :: rest => cstrBytes n :: cstrBytes v :: decodeHeaderPairs rest

/-- `Java_..._quiche_1h3_1event_1headers`: NULL when `current_event` is
NULL (the Java layer's EventStale); otherwise the flat decoded list for the
cached event.  The `h3ptr` argument is present in the JNI signature but
never consulted — only the thread-local slot is read. -/
def quiche_h3_event_headers (h3ptr : Nat) (slot : Option (Nat × H3Event)) :
    Option (List (List Nat)) :=
  match slot with
  | none => none
  | some (_, ev) => some (decodeHeaderPairs ev.rawHeaders)

/-- The `quiche_h3_header` array built by `Java_..._quiche_1h3_1send_1response`
and `Java_..._quiche_1h3_1send_1request` from the flat
`[name0, value0, ...]` array: `num_headers = header_count / 2` pairs in
order, each entry's bytes delimited by `strlen`. -/
def buildH3Headers : List (List Nat) → List (List Nat × List Nat)
  | n :: v :: rest => (cstrBytes n, cstrBytes v) :: buildH3Headers rest
  | _ => []

/- ── quiche_jni.c: address decoding ── -/

/-- A decoded `struct sockaddr_storage` (AF_INET or AF_INET6). -/
inductive SockAddr where
  | v4 (port : Nat) (addr : List Nat)
  | v6 (port : Nat) (addr : List Nat)
  deriving DecidableEq

/-- `decode_address` (quiche_jni.c): input layout
`[family:1][port:2 BE][addr:4 or 16]`; family byte 4 with at least 7 bytes
gives AF_INET, family byte 6 with at least 19 bytes gives AF_INET6,
anything else returns sockaddr length 0 (the error sentinel, modelled as
`none`). -/
def decode_address (bytes : List Nat) : Option SockAddr :=
  let family := bytes.getD 0 0
  let port := (bytes.getD 1 0) <<< 8 ||| (bytes.getD 2 0)
  if family = 4 ∧ 7 ≤ bytes.length then
    some (SockAddr.v4 port ((bytes.drop 3).take 4))
  else if family = 6 ∧ 19 ≤ bytes.length then
    some (SockAddr.v6 port ((bytes.drop 3).take 16))
  else none

/- ── quiche_jni.c: packet-header parsing result ── -/

/-- The four big-endian version bytes written by
`Java_..._quiche_1header_1info`:
`(version >> 24) & 0xFF`, `(version >> 16) & 0xFF`, `(version >> 8) & 0xFF`,
`version & 0xFF`. -/
def beBytes32 (version : Nat) : List Nat :=
  [version >>> 24 &&& 255, version >>> 16 &&& 255,
   version >>> 8 &&& 255, version &&& 255]

/-- The byte array assembled by `Java_..._quiche_1header_1info` after a
successful `quiche_header_info` call, via consecutive
`SetByteArrayRegion` writes:
`[version:4 BE][type:1][dcid_len:1][dcid][scid_len:1][scid][token_len:1][token]`. -/
def quiche_header_info_result (version ty : Nat) (dcid scid token : List Nat) :
    List Nat :=
  beBytes32 version ++
    ty :: dcid.length ::
      (dcid ++ scid.length :: (scid ++ token.length :: token))

/-- `Java_..._quiche_1header_1info`: NULL when the buffer is not direct or
the engine rejects the packet; otherwise the assembled result.  The engine
oracle receives the buffer bytes and declared length and yields
`(version, type, scid, dcid, token)` in the order of the C out-parameters;
its scid/dcid buffers hold QUICHE_MAX_CONN_ID_LEN = 20 bytes and its token
buffer 64 bytes. -/
def quiche_header_info (bufAddr : Option (List Nat)) (len : Nat)
    (engine : List Nat → Nat →
      Option (Nat × Nat × List Nat × List Nat × List Nat)) :
    Option (List Nat) :=
  match bufAddr with
  | none => none
  | some data =>
      match engine data len with
      | none => none
      | some (version, ty, scid, dcid, token) =>
          some (quiche_header_info_result version ty dcid scid token)

/-- Reads one `[len:1][payload:len]` chunk of the documented layout
(used only to state that the emitted bytes follow that layout). -/
def readChunk : List Nat → Option (List Nat × List Nat)
  | [] => none
  | n :: rest =>
      if n ≤ rest.length then some (rest.take n, rest.drop n) else none

/-- Parser for the documented packet-header-info layout
`[version:4 BE][type:1][dcidLen:1][dcid][scidLen:1][scid][tokenLen:1][token]`
with nothing left over; follows the spec's field order, to be compared with
`quiche_header_info_result`. -/
def parseHeaderInfo (r : List Nat) :
    Option (Nat × Nat × List Nat × List Nat × List Nat) :=
  match r with
  | v0 :: v1 :: v2 :: v3 :: ty :: rest =>
      match readChunk rest with
      | none => none
      | some (dcid, rest2) =>
          match readChunk rest2 with
          | none => none
          | some (scid, rest3) =>
              match readChunk rest3 with
              | none => none
              | some (token, rest4) =>
                  if rest4 = [] then
                    some (((v0 * 256 + v1) * 256 + v2) * 256 + v3,
                          ty, dcid, scid, token)
                  else none
  | _ => none

/- ── quiche_jni.c / h3_jni.c: zero-copy packet, stream and body I/O ── -/

/-- Outcome of a bridge call that returns a byte count or -1 and may or may
not reach the engine. -/
structure IoOutcome where
  result : Int
  engineInvoked : Bool
  deriving DecidableEq

/-- `Java_..._quiche_1conn_1recv`: -1 without touching the engine when the
buffer has no direct address; otherwise decodes the two endpoint byte
arrays and feeds the datagram to `quiche_conn_recv`. -/
def quiche_conn_recv (conn_ptr : Int) (bufAddr : Option (List Nat))
    (len : Nat) (from_bytes to_bytes : List Nat)
    (engine : List Nat → Nat → Option SockAddr → Option SockAddr → Int) :
    IoOutcome :=
  match bufAddr with
  | none => { result := -1, engineInvoked := false }
  | some data =>
      { result := engine data len (decode_address from_bytes)
          (decode_address to_bytes)
        engineInvoked := true }

/-- `Java_..._quiche_1conn_1send`: -1 without touching the engine when the
buffer has no direct address; otherwise asks `quiche_conn_send` for the next
outgoing datagram. -/
def quiche_conn_send (conn_ptr : Int) (bufAddr : Option (List Nat))
    (len : Nat) (engine : Nat → Int) : IoOutcome :=
  match bufAddr with
  | none => { result := -1, engineInvoked := false }
  | some _ => { result := engine len, engineInvoked := true }

/-- Outcome of `Java_..._quiche_1conn_1stream_1recv`: the byte count, the
fin flag written back to the Java boolean array (only when the count is
non-negative), and whether the engine was reached. -/
structure StreamRecvOutcome where
  result : Int
  finFlag : Option Bool
  engineInvoked : Bool
  deriving DecidableEq

/-- `Java_..._quiche_1conn_1stream_1recv`: -1 without touching the engine
when the buffer has no direct address; otherwise calls
`quiche_conn_stream_recv` and publishes the fin flag on success. -/
def quiche_conn_stream_recv (conn_ptr stream_id : Int)
    (bufAddr : Option (List Nat)) (len : Nat)
    (engine : Nat → Int × Bool) : StreamRecvOutcome :=
  match bufAddr with
  | none => { result := -1, finFlag := none, engineInvoked := false }
  | some _ =>
      { result := (engine len).1
        finFlag := if 0 ≤ (engine len).1 then some (engine len).2 else none
        engineInvoked := true }

/-- Outcome of a send-style bridge call: the byte count / status, and the
`(len, fin)` pair handed to the engine when it was reached. -/
structure StreamSendOutcome where
  result : Int
  engineCall : Option (Nat × Bool)
  deriving DecidableEq

/-- `Java_..._quiche_1conn_1stream_1send`: -1 without touching the engine
when the buffer has no direct address; otherwise forwards the declared
length and fin flag unchanged to `quiche_conn_stream_send` — including a
zero length with fin set. -/
def quiche_conn_stream_send (conn_ptr stream_id : Int)
    (bufAddr : Option (List Nat)) (len : Nat) (fin : Bool)
    (engine : Nat → Bool → Int) : StreamSendOutcome :=
  match bufAddr with
  | none => { result := -1, engineCall := none }
  | some _ => { result := engine len fin, engineCall := some (len, fin) }

/-- `Java_..._quiche_1h3_1recv_1body`: -1 without touching the engine when
the buffer has no direct address; otherwise calls `quiche_h3_recv_body`.
The thread's event slot is not read or written. -/
def quiche_h3_recv_body (h3ptr conn_ptr stream_id : Int)
    (bufAddr : Option (List Nat)) (len : Nat) (engine : Nat → Int) :
    IoOutcome :=
  match bufAddr with
  | none => { result := -1, engineInvoked := false }
  | some _ => { result := engine len, engineInvoked := true }

/-- `Java_..._quiche_1h3_1send_1body`: a zero length is forwarded to
`quiche_h3_send_body` as `(NULL, 0, fin)` before any buffer access; a
non-zero length uses the direct buffer address when available, else falls
back to the backing array (`arrFallback`), else returns QUICHE_ERR_DONE
(-1) without reaching the engine. -/
def quiche_h3_send_body (h3ptr conn_ptr stream_id : Int)
    (bufAddr arrFallback : Option (List Nat)) (len : Nat) (fin : Bool)
    (engine : Nat → Bool → Int) : StreamSendOutcome :=
  if len = 0 then
    { result := engine 0 fin, engineCall := some (0, fin) }
  else
    match bufAddr with
    | some _ => { result := engine len fin, engineCall := some (len, fin) }
    | none =>
        match arrFallback with
        | some _ =>
            { result := engine len fin, engineCall := some (len, fin) }
        | none => { result := -1, engineCall := none }

/- ── quiche_jni.c: readable-stream listing ── -/

/-- The collection loop of `Java_..._quiche_1conn_1readable`:
`while (quiche_stream_iter_next(iter, &id) && count < 256)
    ids[count++] = id;` over the iterator's remaining ids. -/
def quiche_stream_iter_collect : List Nat → Nat → List Nat
  | [], _ => []
  | id :: rest, count =>
      if count < 256 then id :: quiche_stream_iter_collect rest (count + 1)
      else []

/-- `Java_..._quiche_1conn_1readable`: an empty array when
`quiche_conn_readable` yields a NULL iterator, otherwise the collected ids
(at most 256) copied into the result array in iterator order. -/
def quiche_conn_readable (conn_ptr : Int) (iter : Option (List Nat)) :
    List Nat :=
  match iter with
  | none => []
  | some ids => quiche_stream_iter_collect ids 0

/- ───────────────────────── Theorems ───────────────────────── -/

/-- The inner loop of `SSL_select_next_proto` over a well-formed wire list
finds exactly the structured membership. -/
theorem alpnInnerMatch_wire (p : List Nat) (cs : List (List Nat)) :
    alpnInnerMatch p.length p (alpnWire cs) = decide (p ∈ cs) := by
  induction cs with
  | nil => simp [alpnWire, alpnInnerMatch]
  | cons q qs ih =>
      rw [alpnWire, alpnInnerMatch]
      by_cases hpq : p = q
      · subst hpq
        simp [List.take_left]
      · have hcond : ¬ (q.length = p.length ∧
            (q ++ alpnWire qs).take p.length = p) := by
          rintro ⟨hl, ht⟩
          rw [← hl, List.take_left] at ht
          exact hpq ht.symm
        rw [if_neg hcond, List.drop_left, ih]
        simp [List.mem_cons, hpq]

/-- The outer loop of `SSL_select_next_proto` over well-formed wire lists
computes the first entry of the iterated list that occurs in the other
list. -/
theorem alpnScan_wire (cs ps : List (List Nat)) :
    alpnScan (alpnWire cs) (alpnWire ps) =
      ps.find? (fun q => decide (q ∈ cs)) := by
  induction ps with
  | nil => simp [alpnWire, alpnScan]
  | cons q qs ih =>
      rw [alpnWire, alpnScan, List.take_left, List.drop_left,
        alpnInnerMatch_wire, ih, List.find?_cons]
      cases h : decide (q ∈ cs) <;> simp [h]

/-- Claim C1, counterexample.  Local table `[h3, h2]` (wire bytes for
"h3" = [104,51], "h2" = [104,50]); the peer advertises `[h2, h3]`.  The
claim says the first protocol in the PEER's order that appears in the table
is selected, i.e. h2; the code's callback hands the locally stored table to
`SSL_select_next_proto` as the iterated first list and therefore selects
h3. -/
theorem alpn_peer_order_counterexample :
    alpn_select_cb
        (ssl_ctx_set_alpn_protos { alpnTable := none }
          (alpnWire [[104,51],[104,50]]))
        (alpnWire [[104,50],[104,51]]) = AlpnResult.ok [104,51] ∧
    alpnSpecPeerOrderSelect [[104,50],[104,51]] [[104,51],[104,50]] =
      some [104,50] ∧
    AlpnResult.ok ([104,51] : List Nat) ≠ AlpnResult.ok [104,50] := by
  refine ⟨?_, by decide, by decide⟩
  show (match SSL_select_next_proto (alpnWire [[104,51],[104,50]])
      (alpnWire [[104,50],[104,51]]) with
    | some p => AlpnResult.ok p
    | none => AlpnResult.noack) = AlpnResult.ok [104,51]
  rw [SSL_select_next_proto, alpnScan_wire]
  decide

/-- Claim C1, amended.  For every context whose table was set by
`ssl_ctx_set_alpn_protos` from a wire-format table, negotiation selects the
first protocol of the LOCAL table, in the table's order, that also appears
in the peer's advertised list; if none matches, the callback answers
SSL_TLSEXT_ERR_NOACK (no application protocol acknowledged, not a fatal
alert). -/
theorem alpn_select_first_local_match (ctx : SslCtx)
    (table peer : List (List Nat))
    (hT : ∀ p ∈ table, p.length ≤ 255)
    (hP : ∀ p ∈ peer, p.length ≤ 255) :
    alpn_select_cb (ssl_ctx_set_alpn_protos ctx (alpnWire table))
        (alpnWire peer) =
      match table.find? (fun q => decide (q ∈ peer)) with
      | some p => AlpnResult.ok p
      | none => AlpnResult.noack := by
  show (match SSL_select_next_proto (alpnWire table) (alpnWire peer) with
    | some p => AlpnResult.ok p
    | none => AlpnResult.noack) = _
  rw [SSL_select_next_proto, alpnScan_wire]

/-- Witness for the amended claim C1 at the spec's own example: table
`[h3, h2]`, peer advertises `[h2]` — the negotiated protocol is h2; with
peer `[spdy]` there is no overlap and the callback answers NOACK. -/
theorem alpn_select_first_local_match_witness :
    ((∀ p ∈ ([[104,51],[104,50]] : List (List Nat)), p.length ≤ 255) ∧
     (∀ p ∈ ([[104,50]] : List (List Nat)), p.length ≤ 255)) ∧
    alpn_select_cb
        (ssl_ctx_set_alpn_protos { alpnTable := none }
          (alpnWire [[104,51],[104,50]]))
        (alpnWire [[104,50]]) = AlpnResult.ok [104,50] := by
  refine ⟨⟨by decide, by decide⟩, ?_⟩
  rw [alpn_select_first_local_match { alpnTable := none }
    [[104,51],[104,50]] [[104,50]] (by decide) (by decide)]
  decide

/-- Claim C2, counterexample.  Handle value 1 stands for a stale/unknown
handle: no liveness set exists in the code at all, so the same dispatch
happens for every handle.  `quiche_conn_free` reaches the engine's free on
the cast pointer and returns void (its outcome type has no InvalidHandle —
nor any — error value), and a poll on a freed HttpSession handle still
dispatches to `quiche_h3_conn_poll` instead of failing first. -/
theorem free_poll_no_invalid_handle_counterexample :
    (quiche_conn_free 1).engineFreeInvoked = true ∧
    (quiche_h3_conn_poll none 1 none).engineInvoked = true ∧
    (quiche_h3_conn_free none 1).engineFreeInvoked = true := by
  exact ⟨rfl, rfl, rfl⟩

/-- Claim C2, amended.  Operations taking a NativeHandle cast it directly
to a native pointer and dispatch to the underlying object unconditionally:
no liveness validation exists, the free operations return void, and poll's
only NULL result reflects the engine's answer — so a stale or double-freed
handle is never detected as InvalidHandle and is instead dereferenced by
the engine (undefined behavior in C). -/
theorem handles_dispatch_unconditionally :
    (∀ p : Int, (quiche_conn_free p).engineFreeInvoked = true) ∧
    (∀ (prev : Option (Nat × H3Event)) (h3 : Nat),
        (quiche_h3_conn_free prev h3).engineFreeInvoked = true) ∧
    (∀ (prev : Option (Nat × H3Event)) (h3 : Nat)
        (r : Option H3Event),
        (quiche_h3_conn_poll prev h3 r).engineInvoked = true) := by
  refine ⟨fun _ => rfl, fun _ _ => rfl, fun prev h3 r => ?_⟩
  cases r <;> rfl

/-- Claim C3, counterexample.  The slot holds the event cached by polling
the HttpSession with handle 2; freeing the DIFFERENT session with handle 1
still releases and clears it, because `current_event` is a single
thread-local slot shared by all sessions on the thread, and
`quiche_h3_conn_free` frees whatever it holds. -/
theorem slot_cross_session_counterexample :
    (quiche_h3_conn_free
        (some (2, { streamId := 5, etype := H3EventType.headers,
                    rawHeaders := [([104],[118])] })) 1).slotAfter = none ∧
    (quiche_h3_conn_free
        (some (2, { streamId := 5, etype := H3EventType.headers,
                    rawHeaders := [([104],[118])] })) 1).releasedSlot
      = true ∧
    (2 : Nat) ≠ 1 := by
  exact ⟨rfl, rfl, by decide⟩

/-- Claim C3, amended.  A single thread-local slot shared by every
HttpSession on the thread holds at most one current event detail; freeing
ANY HttpSession handle releases whatever the slot holds — including a
detail cached by a different session — and clears it, in the same call
that frees the session. -/
theorem h3_free_clears_shared_slot (prev : Option (Nat × H3Event))
    (h3 : Nat) :
    (quiche_h3_conn_free prev h3).slotAfter = none ∧
    (quiche_h3_conn_free prev h3).releasedSlot = prev.isSome ∧
    (quiche_h3_conn_free prev h3).engineFreeInvoked = true := by
  exact ⟨rfl, rfl, rfl⟩

/-- Claim C4.  Poll first releases the cached detail and only then asks the
engine: its whole outcome is independent of the previous slot content, the
old detail is released exactly when one was cached, after two polls a
read reflects only the second poll's event, and a read with nothing cached
— in particular right after a poll that returned none — yields NULL
(EventStale at the Java layer) rather than stale data. -/
theorem poll_slot_discipline :
    (∀ (prev prev' : Option (Nat × H3Event)) (h3 : Nat)
        (r : Option H3Event),
        (quiche_h3_conn_poll prev h3 r).slotAfter =
          (quiche_h3_conn_poll prev' h3 r).slotAfter ∧
        (quiche_h3_conn_poll prev h3 r).ret =
          (quiche_h3_conn_poll prev' h3 r).ret) ∧
    (∀ (prev : Option (Nat × H3Event)) (h3 : Nat) (r : Option H3Event),
        (quiche_h3_conn_poll prev h3 r).releasedPrev = prev.isSome) ∧
    (∀ (prev : Option (Nat × H3Event)) (h3 : Nat)
        (r1 : Option H3Event) (ev2 : H3Event),
        quiche_h3_event_headers h3
            ((quiche_h3_conn_poll
                ((quiche_h3_conn_poll prev h3 r1).slotAfter)
                h3 (some ev2)).slotAfter) =
          some (decodeHeaderPairs ev2.rawHeaders)) ∧
    (∀ h3 : Nat, quiche_h3_event_headers h3 none = none) ∧
    (∀ (prev : Option (Nat × H3Event)) (h3 : Nat),
        quiche_h3_event_headers h3
            ((quiche_h3_conn_poll prev h3 none).slotAfter) = none) := by
  refine ⟨fun prev prev' h3 r => ?_, fun prev h3 r => ?_,
    fun prev h3 r1 ev2 => rfl, fun h3 => rfl, fun prev h3 => rfl⟩
  · cases r <;> exact ⟨rfl, rfl⟩
  · cases r <;> rfl

/-- Masking with 0xFF is reduction mod 256. -/
theorem and255_eq_mod (x : Nat) : x &&& 255 = x % 256 := by
  have h := Nat.and_pow_two_sub_one_eq_mod x 8
  norm_num at h
  exact h

/-- A `[len:1][payload:len]` chunk reads back exactly its payload. -/
theorem readChunk_cons (c tail : List Nat) :
    readChunk (c.length :: (c ++ tail)) = some (c, tail) := by
  rw [readChunk]
  rw [if_pos (by simp)]
  rw [List.take_left, List.drop_left]

/-- The byte array assembled by the packet-header bridge parses back, under
the documented layout, to exactly the fields the engine reported. -/
theorem parse_quiche_header_info_result (version ty : Nat)
    (dcid scid token : List Nat) (hv : version < 2 ^ 32) :
    parseHeaderInfo (quiche_header_info_result version ty dcid scid token) =
      some (version, ty, dcid, scid, token) := by
  have h1 := readChunk_cons dcid (scid.length :: (scid ++ token.length :: token))
  have h2 := readChunk_cons scid (token.length :: token)
  have h3 : readChunk (token.length :: token) = some (token, []) := by
    simpa using readChunk_cons token []
  rw [quiche_header_info_result, beBytes32]
  simp only [List.cons_append, List.nil_append]
  rw [parseHeaderInfo]
  rw [h1]
  simp only [h2, h3]
  simp only [if_pos rfl, Option.some.injEq, Prod.mk.injEq,
    Nat.shiftRight_eq_div_pow, and255_eq_mod]
  norm_num at hv ⊢
  omega

/-- Claim C5.  For every successfully parsed packet header (the engine
oracle returning the `(version, type, scid, dcid, token)` out-parameters,
with the code's fixed buffer capacities: 20-byte connection ids, 64-byte
token), the bridge returns exactly the
`[version:4 BE][type:1][dcidLen:1][dcid][scidLen:1][scid][tokenLen:1][token]`
byte array: its length is 4+1+1+dcidLen+1+scidLen+1+tokenLen, and parsing
it back by the documented layout recovers the fields in that order. -/
theorem header_info_layout (data : List Nat) (len : Nat)
    (engine : List Nat → Nat →
      Option (Nat × Nat × List Nat × List Nat × List Nat))
    (version ty : Nat) (scid dcid token : List Nat)
    (heng : engine data len = some (version, ty, scid, dcid, token))
    (hv : version < 2 ^ 32) (hty : ty < 256)
    (hd : dcid.length ≤ 20) (hs : scid.length ≤ 20)
    (htok : token.length ≤ 64) :
    quiche_header_info (some data) len engine =
        some (quiche_header_info_result version ty dcid scid token) ∧
    (quiche_header_info_result version ty dcid scid token).length =
        4 + 1 + 1 + dcid.length + 1 + scid.length + 1 + token.length ∧
    parseHeaderInfo (quiche_header_info_result version ty dcid scid token) =
        some (version, ty, dcid, scid, token) := by
  refine ⟨by simp [quiche_header_info, heng], ?_,
    parse_quiche_header_info_result version ty dcid scid token hv⟩
  rw [quiche_header_info_result, beBytes32]
  simp [List.length_append]
  omega

/-- Witness for claim C5 at the spec's own example: dcid length 8, scid
length 8, token length 0 — the result is exactly 24 bytes and parses back
to the same fields. -/
theorem header_info_layout_witness :
    ((fun (_ : List Nat) (_ : Nat) =>
        some (1, 0, [21,22,23,24,25,26,27,28],
          [11,12,13,14,15,16,17,18], ([] : List Nat)))
      [0] 1 = some (1, 0, [21,22,23,24,25,26,27,28],
          [11,12,13,14,15,16,17,18], ([] : List Nat))) ∧
    (1 : Nat) < 2 ^ 32 ∧ (0 : Nat) < 256 ∧
    (quiche_header_info_result 1 0 [11,12,13,14,15,16,17,18]
        [21,22,23,24,25,26,27,28] []).length = 24 ∧
    parseHeaderInfo (quiche_header_info_result 1 0 [11,12,13,14,15,16,17,18]
        [21,22,23,24,25,26,27,28] []) =
      some (1, 0, [11,12,13,14,15,16,17,18], [21,22,23,24,25,26,27,28], []) := by
  have h := header_info_layout [0] 1
    (fun _ _ => some (1, 0, [21,22,23,24,25,26,27,28],
      [11,12,13,14,15,16,17,18], ([] : List Nat)))
    1 0 [21,22,23,24,25,26,27,28] [11,12,13,14,15,16,17,18] []
    rfl (by decide) (by decide) (by decide) (by decide) (by decide)
  refine ⟨rfl, by decide, by decide, ?_, h.2.2⟩
  have hlen := h.2.1
  simpa using hlen

/-- A byte string without a zero byte survives NUL-delimiting intact. -/
theorem cstrBytes_of_no_nul :
    ∀ (s : List Nat), (0 : Nat) ∉ s → cstrBytes s = s
  | [], _ => rfl
  | a :: s, h => by
      have ha : (a != 0) = true := by
        have h0 : a ≠ 0 := fun e => h (by simp [e])
        simpa using h0
      have ih := cstrBytes_of_no_nul s (fun m => h (List.mem_cons_of_mem a m))
      simp only [cstrBytes, List.takeWhile_cons, ha, if_true]
      simpa [cstrBytes] using ih

/-- Decoding the native header array built from a flat name/value list
gives back the flat list, provided the list pairs up evenly and no entry
contains a zero byte. -/
theorem decodeHeaderPairs_buildH3Headers :
    ∀ (flat : List (List Nat)), flat.length % 2 = 0 →
      (∀ s ∈ flat, (0 : Nat) ∉ s) →
      decodeHeaderPairs (buildH3Headers flat) = flat
  | [], _, _ => rfl
  | [a], h, _ => by simp at h
  | n :: v :: rest, h, hz => by
      have h' : rest.length % 2 = 0 := by
        simp only [List.length_cons] at h
        omega
      have ih := decodeHeaderPairs_buildH3Headers rest h'
        (fun s hs => hz s (by simp [hs]))
      have hn := cstrBytes_of_no_nul n (hz n (by simp))
      have hv := cstrBytes_of_no_nul v (hz v (by simp))
      simp [buildH3Headers, decodeHeaderPairs, hn, hv, ih]

/-- Claim C6, counterexample.  An incoming Headers event whose value bytes
are `[98, 0, 99]` (an embedded zero byte) is decoded by the bridge to
`[98]`: `header_cb` copies the bytes but `NewStringUTF` stops at the first
NUL, so the exact byte content is not preserved.  The encode side truncates
the same way (`strlen`), so the N = 1 round trip differs from the
original. -/
theorem header_nul_truncation_counterexample :
    quiche_h3_event_headers 1
        (some (1, { streamId := 0, etype := H3EventType.headers,
                    rawHeaders := [([97], [98, 0, 99])] })) =
      some [[97], [98]] ∧
    ([[97], [98]] : List (List Nat)) ≠ [[97], [98, 0, 99]] ∧
    decodeHeaderPairs (buildH3Headers [[97], [98, 0, 99]]) = [[97], [98]] := by
  exact ⟨by decide, by decide, by decide⟩

/-- Claim C6, amended.  For every flat header list (N pairs, any N
including 0, 1 and 50) in which no name or value contains a zero byte, the
codec preserves exact pair order and exact byte content — duplicates
included: building the native header array and decoding it back is the
identity.  A name or value containing a zero byte is instead truncated at
its first zero byte (the spec's §9 known limitation). -/
theorem header_roundtrip_no_nul (flat : List (List Nat))
    (hlen : flat.length % 2 = 0)
    (hz : ∀ s ∈ flat, (0 : Nat) ∉ s) :
    decodeHeaderPairs (buildH3Headers flat) = flat :=
  decodeHeaderPairs_buildH3Headers flat hlen hz

/-- Witness for the amended claim C6 at N = 50 pairs (a flat list of 100
zero-free entries). -/
theorem header_roundtrip_no_nul_witness :
    ((List.replicate 100 ([104, 105] : List Nat)).length % 2 = 0 ∧
     ∀ s ∈ List.replicate 100 ([104, 105] : List Nat), (0 : Nat) ∉ s) ∧
    decodeHeaderPairs (buildH3Headers (List.replicate 100 [104, 105])) =
      List.replicate 100 [104, 105] :=
  ⟨⟨by decide, by decide⟩,
    header_roundtrip_no_nul (List.replicate 100 [104, 105])
      (by decide) (by decide)⟩

/-- Claim C7.  `decode_address` yields the error sentinel exactly when the
family byte is neither 4 nor 6, or the input is shorter than the 3 + 4
bytes an IPv4 endpoint needs, or shorter than the 3 + 16 bytes an IPv6
endpoint needs; no other family value is ever accepted. -/
theorem decode_address_rejects (bytes : List Nat) :
    decode_address bytes = none ↔
      ((bytes.getD 0 0 ≠ 4 ∧ bytes.getD 0 0 ≠ 6) ∨
       (bytes.getD 0 0 = 4 ∧ bytes.length < 7) ∨
       (bytes.getD 0 0 = 6 ∧ bytes.length < 19)) := by
  simp only [decode_address]
  split_ifs with h1 h2
  · simp only [reduceCtorEq, false_iff]
    omega
  · simp only [reduceCtorEq, false_iff]
    omega
  · simp only [true_iff]
    omega

/-- Claim C8.  A stream send with declared length 0 and fin set, on an
addressable buffer, is not rejected by the bridge: the engine is invoked
with exactly `(0, true)` — the end-of-stream signal reaches the transport
state machine — and the engine's status is returned unchanged.  The
zero-length HTTP/3 body send forwards `(NULL, 0, fin)` the same way, for
every buffer state (its zero-length branch precedes any buffer access). -/
theorem zero_length_fin_send_forwarded (conn sid h3 : Int) (d : List Nat)
    (engine engine2 : Nat → Bool → Int)
    (bufAddr arrFallback : Option (List Nat)) :
    quiche_conn_stream_send conn sid (some d) 0 true engine =
      { result := engine 0 true, engineCall := some (0, true) } ∧
    quiche_h3_send_body h3 conn sid bufAddr arrFallback 0 true engine2 =
      { result := engine2 0 true, engineCall := some (0, true) } :=
  ⟨rfl, rfl⟩

/-- Claim C9.  Every data-transfer operation whose caller-supplied buffer
region is not addressable (GetDirectBufferAddress returns NULL) returns the
typed failure -1 without invoking the engine; since the engine is never
reached and none of these operations touches the thread's event slot, the
connection and session state are left unchanged. -/
theorem unaddressable_buffer_atomic_failure (conn sid h3 : Int) (len : Nat)
    (from_bytes to_bytes : List Nat) (fin : Bool)
    (e1 : List Nat → Nat → Option SockAddr → Option SockAddr → Int)
    (e2 : Nat → Int) (e3 : Nat → Int × Bool) (e4 : Nat → Bool → Int)
    (e5 : Nat → Int) :
    quiche_conn_recv conn none len from_bytes to_bytes e1 =
      { result := -1, engineInvoked := false } ∧
    quiche_conn_send conn none len e2 =
      { result := -1, engineInvoked := false } ∧
    quiche_conn_stream_recv conn sid none len e3 =
      { result := -1, finFlag := none, engineInvoked := false } ∧
    quiche_conn_stream_send conn sid none len fin e4 =
      { result := -1, engineCall := none } ∧
    quiche_h3_recv_body h3 conn sid none len e5 =
      { result := -1, engineInvoked := false } :=
  ⟨rfl, rfl, rfl, rfl, rfl⟩

/-- The readable-stream collection loop keeps the iterator's order and
stops after filling 256 slots. -/
theorem quiche_stream_iter_collect_eq_take :
    ∀ (ids : List Nat) (count : Nat),
      quiche_stream_iter_collect ids count = ids.take (256 - count)
  | [], _ => by simp [quiche_stream_iter_collect]
  | id :: rest, count => by
      rw [quiche_stream_iter_collect]
      by_cases h : count < 256
      · rw [if_pos h, quiche_stream_iter_collect_eq_take rest (count + 1)]
        have h256 : 256 - count = (256 - (count + 1)) + 1 := by omega
        rw [h256, List.take_succ_cons]
      · rw [if_neg h]
        have h0 : 256 - count = 0 := by omega
        rw [h0, List.take_zero]

/-- Claim C10.  A NULL iterator yields an empty array (not a failure), and
otherwise the result is exactly the first 256 stream ids in iterator
order — anything past the 256th is silently omitted from this call's
result. -/
theorem readable_streams_cap (conn : Int) :
    quiche_conn_readable conn none = [] ∧
    ∀ ids : List Nat, quiche_conn_readable conn (some ids) = ids.take 256 := by
  refine ⟨rfl, fun ids => ?_⟩
  show quiche_stream_iter_collect ids 0 = ids.take 256
  rw [quiche_stream_iter_collect_eq_take ids 0]

end Gumdrop
